import Mathlib

/-!
Verification of the MPR (multi-planar reconstruction) viewer engine of
`src/main.py` (class `MPRViewer`), via a shallow embedding of its state and
of the operations `get_slice`, `on_mouse_drag` (crosshair and pan branches),
`wheel_zoom`, `add_point`, `load_nifti` and `update_slices_to_center`.

Real scalars (numpy float64 values, matplotlib data coordinates) are
modelled by `ℚ`; Python ints by `Int`; the three-element Python lists
`self.slices` and `self.marked_points` by three-field structures indexed by
a `Nat` view index, mirroring the `view_index == 0 / 1 / 2` branching of
the source.
-/

/-- The loaded volume: `self.data`, a 3D float array of shape
`(d0, d1, d2)` with scalar values `val i j k = data[i, j, k]`.
`val` is total; the source reads it only at indices produced by its own
clamping, which is exactly what the theorems below examine. -/
structure Volume where
  d0 : Nat
  d1 : Nat
  d2 : Nat
  val : Int → Int → Int → ℚ

/-- Python `self.data.shape[i]` for `i` in `{0, 1, 2}`. -/
def Volume.shape (v : Volume) : Nat → Nat
  | 0 => v.d0
  | 1 => v.d1
  | 2 => v.d2
  | _ => 0

/-- The cursor `self.slices`, a 3-element integer list. -/
structure Slices where
  s0 : Int
  s1 : Int
  s2 : Int
deriving DecidableEq

/-- Python `self.slices[i]`. -/
def Slices.get (s : Slices) : Nat → Int
  | 0 => s.s0
  | 1 => s.s1
  | 2 => s.s2
  | _ => 0

/-- The annotation store `self.marked_points`, one list of 2D points per
view. -/
structure Points3 where
  p0 : List (Int × Int)
  p1 : List (Int × Int)
  p2 : List (Int × Int)
deriving DecidableEq

/-- Python `self.marked_points[i]`. -/
def Points3.get (p : Points3) : Nat → List (Int × Int)
  | 0 => p.p0
  | 1 => p.p1
  | 2 => p.p2
  | _ => []

/-- The mutable session state of `MPRViewer` that the engine operations
read and write: `self.data`, `self.slices`, `self.marked_points`,
`self.brightness`, `self.contrast`. -/
structure Viewer where
  data : Option Volume
  slices : Slices
  markedPoints : Points3
  brightness : ℚ
  contrast : ℚ

/-- The clamp pattern `min(max(v, 0), d - 1)` used throughout the source
(`get_slice`, `on_mouse_drag`, `add_point`), with `d` a shape entry. -/
def pyClamp (v : Int) (d : Nat) : Int :=
  min (max v 0) ((d : Int) - 1)

/-- Row-major materialisation of a 2D plane `f` with `rows × cols`
entries, modelling the 2D numpy arrays `self.data[:, :, k]` etc. -/
def planeList (rows cols : Nat) (f : Int → Int → ℚ) : List (List ℚ) :=
  (List.range rows).map fun i => (List.range cols).map fun j => f (i : Int) (j : Int)

/-- Python `np.min(slice_data)` over a 2D array (0 on the empty plane,
which numpy rejects; every loaded plane is nonempty). -/
def planeMin (p : List (List ℚ)) : ℚ :=
  match p.flatten with
  | [] => 0
  | h :: t => t.foldl min h

/-- Python `np.max(slice_data)` over a 2D array. -/
def planeMax (p : List (List ℚ)) : ℚ :=
  match p.flatten with
  | [] => 0
  | h :: t => t.foldl max h

/-- The per-plane min-max normalisation step of `get_slice`: if
`slice_max > slice_min` stretch to `[0, 1]`, else fill with `0.5`
(`np.full_like(slice_data, 0.5)`). -/
def normalizePlane (p : List (List ℚ)) : List (List ℚ) :=
  if planeMin p < planeMax p then
    p.map fun row => row.map fun v => (v - planeMin p) / (planeMax p - planeMin p)
  else
    p.map fun row => row.map fun _ => (1 : ℚ) / 2

/-- The windowing transform applied by `get_slice` after extraction:
min-max normalisation followed by
`np.clip((v - 0.5) * contrast + 0.5 + brightness, 0, 1)`. -/
def window (b c : ℚ) (p : List (List ℚ)) : List (List ℚ) :=
  (normalizePlane p).map fun row => row.map fun v =>
    min (max ((v - 1/2) * c + 1/2 + b) 0) 1

/-- Embedding of `MPRViewer.get_slice(view_index, slice_index)`:
returns `None` when no data is loaded, otherwise clamps the index with
`max_slice = self.data.shape[view_index] - 1` (the view index, not the
depth axis), extracts `data[:, :, k]` / `data[:, k, :]` / `data[k, :, :]`
for views 0 / 1 / 2, and windows the plane. -/
def get_slice (st : Viewer) (view : Nat) (sliceIndex : Int) : Option (List (List ℚ)) :=
  match st.data with
  | none => none
  | some vol =>
    let k := pyClamp sliceIndex (vol.shape view)
    match view with
    | 0 => some (window st.brightness st.contrast
        (planeList vol.d0 vol.d1 fun i j => vol.val i j k))
    | 1 => some (window st.brightness st.contrast
        (planeList vol.d0 vol.d2 fun i j => vol.val i k j))
    | 2 => some (window st.brightness st.contrast
        (planeList vol.d1 vol.d2 fun i j => vol.val k i j))
    | _ => none

/-- Embedding of `MPRViewer.update_views`: returns without rendering when
no data is loaded, otherwise renders `get_slice(i, self.slices[i])` for
the three views. -/
def update_views (st : Viewer) : Option (List (Option (List (List ℚ)))) :=
  match st.data with
  | none => none
  | some _ =>
    some [get_slice st 0 st.slices.s0, get_slice st 1 st.slices.s1,
          get_slice st 2 st.slices.s2]

/-- The depth axis each view's extraction branch actually slices along:
`get_slice` view 0 indexes axis 2 (`data[:, :, k]`), view 1 indexes
axis 1, view 2 indexes axis 0. -/
def depthAxis : Nat → Nat
  | 0 => 2
  | 1 => 1
  | 2 => 0
  | _ => 0

/-- Embedding of the crosshair (`self.dragging`) branch of
`MPRViewer.on_mouse_drag`: a drag in view `view` at integer data
coordinates `(x, y)` writes the two coordinates into the other two
entries of `self.slices`, each clamped with `self.data.shape` at the
written entry's own list position, then re-clamps all three entries
against `self.data.shape[i]` (the final `for i in range(3)` loop). -/
def on_mouse_drag_cross (vol : Volume) (sl : Slices) (view : Nat) (x y : Int) : Slices :=
  let sl1 : Slices :=
    match view with
    | 0 => ⟨sl.s0, pyClamp y vol.d1, pyClamp x vol.d2⟩
    | 1 => ⟨pyClamp y vol.d0, sl.s1, pyClamp x vol.d2⟩
    | 2 => ⟨pyClamp y vol.d0, pyClamp x vol.d1, sl.s2⟩
    | _ => sl
  ⟨pyClamp sl1.s0 vol.d0, pyClamp sl1.s1 vol.d1, pyClamp sl1.s2 vol.d2⟩

/-- Embedding of `MPRViewer.add_point(event, view_index)`: `click = none`
models a click whose `event.xdata`/`event.ydata` are `None` (outside the
canvas), on which the function returns at once.  Otherwise the previous
points of all three views are discarded, the click coordinates are
clamped against the dimensions used in the source branch for that view,
and exactly one point is stored per view (the clicked view keeps the
click itself, the other two receive the mixes with `self.slices` that the
source writes). -/
def add_point (st : Viewer) (click : Option (Int × Int)) (view : Nat) : Viewer :=
  match click with
  | none => st
  | some (xr, yr) =>
    match st.data with
    | none => st
    | some vol =>
      match view with
      | 0 =>
        let x := pyClamp xr vol.d0
        let y := pyClamp yr vol.d1
        { st with markedPoints := ⟨[(x, y)], [(x, st.slices.s1)], [(y, st.slices.s2)]⟩ }
      | 1 =>
        let x := pyClamp xr vol.d0
        let y := pyClamp yr vol.d2
        { st with markedPoints := ⟨[(x, st.slices.s0)], [(x, y)], [(st.slices.s1, y)]⟩ }
      | 2 =>
        let x := pyClamp xr vol.d1
        let y := pyClamp yr vol.d2
        { st with markedPoints := ⟨[(st.slices.s0, x)], [(y, x)], [(x, y)]⟩ }
      | _ => { st with markedPoints := ⟨[], [], []⟩ }

/-- The cursor written by `MPRViewer.load_nifti`:
`self.slices = [dim // 2 for dim in self.data.shape]`. -/
def load_slices (vol : Volume) : Slices :=
  ⟨((vol.d0 / 2 : Nat) : Int), ((vol.d1 / 2 : Nat) : Int), ((vol.d2 / 2 : Nat) : Int)⟩

/-- The cursor written by `MPRViewer.update_slices_to_center`:
`self.slices = [shape[2] // 2, shape[1] // 2, shape[0] // 2]`. -/
def update_slices_to_center (vol : Volume) : Slices :=
  ⟨((vol.d2 / 2 : Nat) : Int), ((vol.d1 / 2 : Nat) : Int), ((vol.d0 / 2 : Nat) : Int)⟩

/-- A per-view viewport rectangle, the `(ax.get_xlim(), ax.get_ylim())`
state read and written by the pan branch of `on_mouse_drag` and by
`wheel_zoom`. -/
structure Rect where
  xMin : ℚ
  xMax : ℚ
  yMin : ℚ
  yMax : ℚ
deriving DecidableEq

/-- Embedding of the panning branch of `MPRViewer.on_mouse_drag`:
`ax.set_xlim(x_min + dx, x_max + dx)` and likewise for y, with no
clamping against the slice extent. -/
def pan (r : Rect) (dx dy : ℚ) : Rect :=
  ⟨r.xMin + dx, r.xMax + dx, r.yMin + dy, r.yMax + dy⟩

/-- The limit recomputation of `MPRViewer.wheel_zoom` for a general scale
factor `s`, exactly the four formulas of the source:
`new_x_min = x_data - (x_data - x_min) / scale_factor`, etc. -/
def zoomRect (r : Rect) (cx cy s : ℚ) : Rect :=
  ⟨cx - (cx - r.xMin) / s, cx + (r.xMax - cx) / s,
   cy - (cy - r.yMin) / s, cy + (r.yMax - cy) / s⟩

/-- Embedding of `MPRViewer.wheel_zoom`: scroll-up uses
`scale_factor = 1.1`, scroll-down uses `scale_factor = 1 / 1.1`
(the third source branch, a non-scroll button, returns unchanged and
cannot arise from a scroll event). -/
def wheel_zoom (r : Rect) (cx cy : ℚ) (up : Bool) : Rect :=
  zoomRect r cx cy (if up then 11 / 10 else 10 / 11)

/-- Clamping is the identity on an index already inside `[0, d - 1]`. -/
theorem pyClamp_eq_self (v : Int) (d : Nat) (h0 : 0 ≤ v) (h1 : v < (d : Int)) :
    pyClamp v d = v := by
  unfold pyClamp
  omega

/-- C4: for every 2D plane and all brightness/contrast parameters, the
windowing transform of `get_slice` computes per-plane min-max
normalisation followed by `clamp((v - 0.5) * contrast + 0.5 + brightness,
0, 1)` elementwise (a pure function of its arguments, hence deterministic
and side-effect free), and every element of the output lies in `[0, 1]`. -/
theorem window_spec (p : List (List ℚ)) (b c : ℚ) :
    window b c p = p.map (fun row => row.map fun v =>
      min (max (((if planeMin p < planeMax p then
          (v - planeMin p) / (planeMax p - planeMin p) else 1/2) - 1/2) * c + 1/2 + b) 0) 1) ∧
    ∀ row ∈ window b c p, ∀ v ∈ row, 0 ≤ v ∧ v ≤ 1 := by
  constructor
  · unfold window normalizePlane
    by_cases h : planeMin p < planeMax p
    · simp only [if_pos h, List.map_map, Function.comp_def]
    · simp only [if_neg h, List.map_map, Function.comp_def]
  · intro row hrow v hv
    unfold window at hrow
    rcases List.mem_map.mp hrow with ⟨row0, _, rfl⟩
    rcases List.mem_map.mp hv with ⟨v0, _, rfl⟩
    exact ⟨le_min (le_max_right _ _) zero_le_one, min_le_right _ _⟩

/-- C3: on a plane whose minimum equals its maximum, every element of the
windowed output equals the single constant
`clamp((0.5 - 0.5) * contrast + 0.5 + brightness, 0, 1)`; with
`contrast = 3/2` and `brightness = 1/10` that constant is `3/5`. -/
theorem flat_plane_constant (p : List (List ℚ)) (b c : ℚ)
    (h : planeMin p = planeMax p) :
    (∀ v ∈ (window b c p).flatten, v = min (max ((1/2 - 1/2) * c + 1/2 + b) 0) 1) ∧
    (∀ v ∈ (window (1/10) (3/2) p).flatten, v = 3/5) := by
  have hnot : ¬ planeMin p < planeMax p := by
    rw [h]
    exact lt_irrefl _
  have key : ∀ b' c' : ℚ, ∀ v ∈ (window b' c' p).flatten,
      v = min (max ((1/2 - 1/2) * c' + 1/2 + b') 0) 1 := by
    intro b' c' v hv
    unfold window normalizePlane at hv
    rw [if_neg hnot, List.map_map, List.mem_flatten] at hv
    obtain ⟨row, hrow, hvrow⟩ := hv
    rw [List.mem_map] at hrow
    obtain ⟨row0, _, rfl⟩ := hrow
    simp only [Function.comp_apply, List.map_map] at hvrow
    rw [List.mem_map] at hvrow
    obtain ⟨a, _, rfl⟩ := hvrow
    rfl
  refine ⟨key b c, fun v hv => ?_⟩
  rw [key (1/10) (3/2) v hv]
  norm_num

/-- C9: with no volume loaded (`self.data is None`), `get_slice` returns
`None` for every view index and every depth index, and `update_views`
returns without producing any rendered plane. -/
theorem noop_when_no_data (st : Viewer) (h : st.data = none) :
    (∀ view : Nat, ∀ k : Int, get_slice st view k = none) ∧
    update_views st = none := by
  constructor
  · intro view k
    unfold get_slice
    rw [h]
  · unfold update_views
    rw [h]

/-- A session with no volume loaded. -/
def emptyViewer : Viewer := ⟨none, ⟨0, 0, 0⟩, ⟨[], [], []⟩, 0, 1⟩

/-- Witness for C9 at the empty session and a concrete view and index. -/
theorem noop_when_no_data_witness :
    get_slice emptyViewer 0 5 = none ∧ update_views emptyViewer = none :=
  ⟨(noop_when_no_data emptyViewer rfl).1 0 5, (noop_when_no_data emptyViewer rfl).2⟩

/-- Witness for C3 on the concrete flat plane `[[2, 2]]` with
`brightness = 1/10`, `contrast = 3/2`. -/
theorem flat_plane_constant_witness :
    planeMin [[(2 : ℚ), 2]] = planeMax [[(2 : ℚ), 2]] ∧
    window (1/10) (3/2) [[(2 : ℚ), 2]] = [[3/5, 3/5]] ∧
    ∀ v ∈ (window (1/10) (3/2) [[(2 : ℚ), 2]]).flatten, v = 3/5 :=
  ⟨by norm_num [planeMin, planeMax],
   by norm_num [window, normalizePlane, planeMin, planeMax, List.replicate],
   (flat_plane_constant [[(2 : ℚ), 2]] (1/10) (3/2) (by norm_num [planeMin, planeMax])).2⟩

/-- C6: `wheel_zoom` recomputes each bound by the stated formulas
(`new_min = c - (c - old_min)/s`, `new_max = c + (old_max - c)/s`,
independently in x and y), the in-plane position of the zoom center
relative to the viewport is unchanged (the point under the cursor stays
fixed), and the implemented wheel steps are `s = 11/10` for scroll-up and
`s = 10/11` for scroll-down. -/
theorem zoom_fixed_point (r : Rect) (cx cy s : ℚ)
    (hx : r.xMin < r.xMax) (hy : r.yMin < r.yMax) (hs : 0 < s)
    (hcx1 : r.xMin ≤ cx) (hcx2 : cx ≤ r.xMax)
    (hcy1 : r.yMin ≤ cy) (hcy2 : cy ≤ r.yMax) :
    (zoomRect r cx cy s).xMin = cx - (cx - r.xMin) / s ∧
    (zoomRect r cx cy s).xMax = cx + (r.xMax - cx) / s ∧
    (zoomRect r cx cy s).yMin = cy - (cy - r.yMin) / s ∧
    (zoomRect r cx cy s).yMax = cy + (r.yMax - cy) / s ∧
    (cx - (zoomRect r cx cy s).xMin) / ((zoomRect r cx cy s).xMax - (zoomRect r cx cy s).xMin)
      = (cx - r.xMin) / (r.xMax - r.xMin) ∧
    wheel_zoom r cx cy true = zoomRect r cx cy (11 / 10) ∧
    wheel_zoom r cx cy false = zoomRect r cx cy (10 / 11) := by
  have hs0 : s ≠ 0 := ne_of_gt hs
  have hxx : r.xMax - r.xMin ≠ 0 := sub_ne_zero.mpr (ne_of_gt hx)
  refine ⟨rfl, rfl, rfl, rfl, ?_, rfl, rfl⟩
  have hnum : cx - (zoomRect r cx cy s).xMin = (cx - r.xMin) / s := by
    show cx - (cx - (cx - r.xMin) / s) = (cx - r.xMin) / s
    ring
  have hden : (zoomRect r cx cy s).xMax - (zoomRect r cx cy s).xMin
      = (r.xMax - r.xMin) / s := by
    show (cx + (r.xMax - cx) / s) - (cx - (cx - r.xMin) / s) = (r.xMax - r.xMin) / s
    ring
  rw [hnum, hden]
  field_simp

/-- The concrete viewport rectangle `[0, 10] × [0, 10]` used by the
viewport witnesses. -/
def rectW : Rect := ⟨0, 10, 0, 10⟩

/-- Witness for C6 at the rectangle `[0, 10] × [0, 10]`, center `(2, 3)`,
factor `2`. -/
theorem zoom_fixed_point_witness :
    (zoomRect rectW 2 3 2).xMin = 2 - (2 - rectW.xMin) / 2 ∧
    (zoomRect rectW 2 3 2).xMax = 2 + (rectW.xMax - 2) / 2 ∧
    (zoomRect rectW 2 3 2).yMin = 3 - (3 - rectW.yMin) / 2 ∧
    (zoomRect rectW 2 3 2).yMax = 3 + (rectW.yMax - 3) / 2 ∧
    (2 - (zoomRect rectW 2 3 2).xMin) / ((zoomRect rectW 2 3 2).xMax - (zoomRect rectW 2 3 2).xMin)
      = (2 - rectW.xMin) / (rectW.xMax - rectW.xMin) ∧
    wheel_zoom rectW 2 3 true = zoomRect rectW 2 3 (11 / 10) ∧
    wheel_zoom rectW 2 3 false = zoomRect rectW 2 3 (10 / 11) :=
  zoom_fixed_point rectW 2 3 2 (by norm_num [rectW]) (by norm_num [rectW]) (by norm_num)
    (by norm_num [rectW]) (by norm_num [rectW]) (by norm_num [rectW]) (by norm_num [rectW])

/-- C7: starting from a nonempty viewport rectangle, both the pan branch
of `on_mouse_drag` (a pure shift of all four bounds, with no clamping to
the slice extent) and the zoom recomputation with any factor `s > 0` and
any center produce a rectangle that is again nonempty
(`xMax > xMin` and `yMax > yMin`). -/
theorem viewport_nonempty_preserved (r : Rect) (dx dy cx cy s : ℚ)
    (hx : r.xMin < r.xMax) (hy : r.yMin < r.yMax) (hs : 0 < s) :
    ((pan r dx dy).xMin < (pan r dx dy).xMax ∧ (pan r dx dy).yMin < (pan r dx dy).yMax) ∧
    ((zoomRect r cx cy s).xMin < (zoomRect r cx cy s).xMax ∧
      (zoomRect r cx cy s).yMin < (zoomRect r cx cy s).yMax) := by
  have hxz : (0:ℚ) < (r.xMax - r.xMin) / s := div_pos (by linarith) hs
  have hyz : (0:ℚ) < (r.yMax - r.yMin) / s := div_pos (by linarith) hs
  have hxsum : (cx - r.xMin) / s + (r.xMax - cx) / s = (r.xMax - r.xMin) / s := by ring
  have hysum : (cy - r.yMin) / s + (r.yMax - cy) / s = (r.yMax - r.yMin) / s := by ring
  refine ⟨⟨?_, ?_⟩, ?_, ?_⟩
  · show r.xMin + dx < r.xMax + dx
    linarith
  · show r.yMin + dy < r.yMax + dy
    linarith
  · show cx - (cx - r.xMin) / s < cx + (r.xMax - cx) / s
    linarith
  · show cy - (cy - r.yMin) / s < cy + (r.yMax - cy) / s
    linarith

/-- Witness for C7 at the rectangle `[0, 10] × [0, 10]`, pan delta
`(3, -4)`, zoom center `(2, 3)` and factor `2`. -/
theorem viewport_nonempty_preserved_witness :
    ((pan rectW 3 (-4)).xMin < (pan rectW 3 (-4)).xMax ∧
      (pan rectW 3 (-4)).yMin < (pan rectW 3 (-4)).yMax) ∧
    ((zoomRect rectW 2 3 2).xMin < (zoomRect rectW 2 3 2).xMax ∧
      (zoomRect rectW 2 3 2).yMin < (zoomRect rectW 2 3 2).yMax) :=
  viewport_nonempty_preserved rectW 3 (-4) 2 3 2 (by norm_num [rectW])
    (by norm_num [rectW]) (by norm_num)

/-- The dimension against which `add_point` clamps the click's
x coordinate in each view branch of the source
(`shape[0]`, `shape[0]`, `shape[1]` for views 0, 1, 2). -/
def clickDimX (vol : Volume) : Nat → Nat
  | 0 => vol.d0
  | 1 => vol.d0
  | 2 => vol.d1
  | _ => 0

/-- The dimension against which `add_point` clamps the click's
y coordinate in each view branch of the source
(`shape[1]`, `shape[2]`, `shape[2]` for views 0, 1, 2). -/
def clickDimY (vol : Volume) : Nat → Nat
  | 0 => vol.d1
  | 1 => vol.d2
  | 2 => vol.d2
  | _ => 0

/-- C5: placing a point via view `v` at in-bounds integer coordinates
`(x, y)` and reading back view `v`'s own stored projection returns
exactly `[(x, y)]`, and after any placement every view holds at most one
marked point (the previous points of all three views are replaced). -/
theorem add_point_roundtrip (st : Viewer) (vol : Volume) (view : Nat) (x y : Int)
    (hd : st.data = some vol) (hv : view < 3)
    (hx0 : 0 ≤ x) (hx1 : x < (clickDimX vol view : Int))
    (hy0 : 0 ≤ y) (hy1 : y < (clickDimY vol view : Int)) :
    ((add_point st (some (x, y)) view).markedPoints).get view = [(x, y)] ∧
    ∀ w : Nat, (((add_point st (some (x, y)) view).markedPoints).get w).length ≤ 1 := by
  interval_cases view <;>
    simp only [clickDimX, clickDimY] at hx1 hy1 <;>
    constructor <;>
    simp only [add_point, hd, Points3.get,
      pyClamp_eq_self x _ hx0 hx1, pyClamp_eq_self y _ hy0 hy1] <;>
    intro w <;>
    rcases w with _ | _ | _ | w <;>
    simp [Points3.get]

/-- A concrete 4×5×6 volume and session used by the annotation
witnesses. -/
def volW : Volume := ⟨4, 5, 6, fun _ _ _ => 0⟩

/-- A session holding `volW` with cursor `(2, 2, 3)`. -/
def stW : Viewer := ⟨some volW, ⟨2, 2, 3⟩, ⟨[], [], []⟩, 0, 1⟩

/-- Witness for C5: a click at `(2, 3)` in the Coronal view of `stW`. -/
theorem add_point_roundtrip_witness :
    ((add_point stW (some (2, 3)) 1).markedPoints).get 1 = [(2, 3)] ∧
    (((add_point stW (some (2, 3)) 1).markedPoints).get 0).length ≤ 1 :=
  ⟨(add_point_roundtrip stW volW 1 2 3 rfl (by norm_num) (by norm_num)
      (by norm_num [clickDimX, volW]) (by norm_num) (by norm_num [clickDimY, volW])).1,
   (add_point_roundtrip stW volW 1 2 3 rfl (by norm_num) (by norm_num)
      (by norm_num [clickDimX, volW]) (by norm_num) (by norm_num [clickDimY, volW])).2 0⟩

/-- C10: with a volume loaded, `add_point` changes only
`self.marked_points`: the data, the cursor `self.slices`, the brightness
and the contrast are untouched, and a click whose coordinates are absent
(`event.xdata is None`) leaves the marked points unchanged too. -/
theorem add_point_frame (st : Viewer) (vol : Volume) (click : Option (Int × Int)) (view : Nat)
    (hd : st.data = some vol) :
    (add_point st click view).data = st.data ∧
    (add_point st click view).slices = st.slices ∧
    (add_point st click view).brightness = st.brightness ∧
    (add_point st click view).contrast = st.contrast ∧
    (click = none → (add_point st click view).markedPoints = st.markedPoints) := by
  rcases click with _ | ⟨x, y⟩
  · exact ⟨rfl, rfl, rfl, rfl, fun _ => rfl⟩
  · rcases view with _ | _ | _ | v <;> simp [add_point, hd]

/-- Witness for C10: a click at `(1, 1)` in the Axial view of `stW`, and
an absent click. -/
theorem add_point_frame_witness :
    ((add_point stW (some (1, 1)) 0).data = stW.data ∧
      (add_point stW (some (1, 1)) 0).slices = stW.slices ∧
      (add_point stW (some (1, 1)) 0).brightness = stW.brightness ∧
      (add_point stW (some (1, 1)) 0).contrast = stW.contrast ∧
      (some ((1 : Int), (1 : Int)) = none →
        (add_point stW (some (1, 1)) 0).markedPoints = stW.markedPoints)) ∧
    (add_point stW none 2).markedPoints = stW.markedPoints :=
  ⟨add_point_frame stW volW (some (1, 1)) 0 rfl,
   (add_point_frame stW volW none 2 rfl).2.2.2.2 rfl⟩

/-- A non-cubic 5×1×2 volume whose sagittal planes at depths 1 and 3
differ, with an all-background plane everywhere else. -/
def volC1 : Volume := ⟨5, 1, 2, fun a _ c => if a = 1 then (c : ℚ) else 0⟩

/-- A session holding `volC1` with neutral windowing parameters. -/
def stC1 : Viewer := ⟨some volC1, ⟨0, 0, 0⟩, ⟨[], [], []⟩, 0, 1⟩

/-- C1: the depth clamp of `get_slice` uses `shape[view_index]` instead
of the view's own depth axis.  On the 5×1×2 volume, the Sagittal view
(view 2, depth axis 0 of size 5) clamps the valid depth 3 against
`shape[2] = 2` down to index 1, so `get_slice` returns the depth-1 plane
instead of the depth-3 plane the claim requires (and the two planes
differ). -/
theorem sagittal_depth_clamp_bug :
    pyClamp 3 (volC1.shape 2) = 1 ∧
    (3 : Int) ≤ (volC1.shape (depthAxis 2) : Int) - 1 ∧
    get_slice stC1 2 3 = get_slice stC1 2 1 ∧
    get_slice stC1 2 3 ≠
      some (window 0 1 (planeList volC1.d1 volC1.d2 fun i j => volC1.val 3 i j)) := by
  refine ⟨by decide, by decide,
    by norm_num [get_slice, stC1, Volume.shape, volC1, pyClamp], ?_⟩
  have hL : get_slice stC1 2 3 = some (window 0 1 [[(0 : ℚ), 1]]) := by
    norm_num [get_slice, stC1, volC1, Volume.shape, pyClamp, planeList, List.range_succ]
  have hR : planeList volC1.d1 volC1.d2 (fun i j => volC1.val 3 i j) = [[(0 : ℚ), 0]] := by
    norm_num [planeList, volC1, List.range_succ]
  rw [hL, hR]
  norm_num [window, normalizePlane, planeMin, planeMax, List.replicate]

/-- A non-cubic 2×3×5 volume. -/
def volC2 : Volume := ⟨2, 3, 5, fun _ _ _ => 0⟩

/-- C2: the crosshair drag clamps each written cursor entry against the
shape at the entry's list position, not against the receiving view's
depth axis.  On the 2×3×5 volume, an Axial drag at `(x, y) = (4, 1)`
stores `slices[2] = 4` (clamped against `shape[2] = 5`), while clamping
to the Sagittal view's own depth axis (axis 0, size 2) would give 1; the
stored 4 is outside that axis' valid range. -/
theorem drag_clamp_bug :
    on_mouse_drag_cross volC2 ⟨0, 0, 0⟩ 0 4 1 = ⟨0, 1, 4⟩ ∧
    pyClamp 4 (volC2.shape (depthAxis 2)) = 1 ∧
    ¬ (on_mouse_drag_cross volC2 ⟨0, 0, 0⟩ 0 4 1).s2 < (volC2.shape (depthAxis 2) : Int) := by
  decide

/-- The 64×64×40 volume of the spec's end-to-end example. -/
def volC8 : Volume := ⟨64, 64, 40, fun _ _ _ => 0⟩

/-- C8 counterexample: on the 64×64×40 volume, `load_nifti` initialises
the cursor to `(32, 32, 20)` but `update_slices_to_center` computes
`(20, 32, 32)`, so the two routines do not compute the same cursor, and
the loaded `slices[0] = 32` is not the midpoint of view 0's depth axis
(axis 2, midpoint 20). -/
theorem load_center_mismatch :
    load_slices volC8 = ⟨32, 32, 20⟩ ∧
    update_slices_to_center volC8 = ⟨20, 32, 32⟩ ∧
    load_slices volC8 ≠ update_slices_to_center volC8 ∧
    (load_slices volC8).s0 ≠ ((volC8.shape (depthAxis 0) / 2 : Nat) : Int) := by
  decide

/-- C8 amended: `load_nifti` initialises the cursor to the per-axis
midpoints in axis order `(d0/2, d1/2, d2/2)` (component `i` is the
midpoint of axis `i`, not of view `i`'s depth axis), while
`update_slices_to_center` computes the reversed `(d2/2, d1/2, d0/2)`;
the two agree whenever `d0 = d2`. -/
theorem load_midpoints (vol : Volume) :
    load_slices vol
      = ⟨((vol.d0 / 2 : Nat) : Int), ((vol.d1 / 2 : Nat) : Int), ((vol.d2 / 2 : Nat) : Int)⟩ ∧
    update_slices_to_center vol
      = ⟨((vol.d2 / 2 : Nat) : Int), ((vol.d1 / 2 : Nat) : Int), ((vol.d0 / 2 : Nat) : Int)⟩ ∧
    (vol.d0 = vol.d2 → load_slices vol = update_slices_to_center vol) := by
  refine ⟨rfl, rfl, fun h => ?_⟩
  simp [load_slices, update_slices_to_center, h]

/-- A cubic 64×64×64 volume. -/
def volCube : Volume := ⟨64, 64, 64, fun _ _ _ => 0⟩

/-- Witness for the amended C8: on a cubic volume the load-time cursor
and the reset-to-center cursor coincide. -/
theorem load_midpoints_witness :
    load_slices volCube = update_slices_to_center volCube :=
  (load_midpoints volCube).2.2 rfl
